import Mathlib

/-!
Verification development for the Maskon Health backend: the booking and
ordering lifecycle subsystem (route handlers in `backend/routes/bookings.js`
and the orders router, model methods in `backend/models/Booking.js`, the
Order schema, and the HealthProfessional availability resolver).

Conventions of the embedding:
* Money values (prices, fees, tax) are rationals; the JavaScript arithmetic
  on them (`+`, `*`, comparison) is exact on the inputs considered here.
* Timestamps are integers (milliseconds since the epoch, as in JavaScript
  `Date.getTime()`).  A stored `appointmentDate` is the timestamp of the
  UTC midnight of the ISO calendar date, the value Mongo stores for an ISO
  date string.
* Clock-time strings (`"HH:MM"`) are kept as strings, as in the source, and
  parsed exactly where the source parses them
  (`new Date('2000-01-01 ' + time)` resp. `new Date(date + 'T' + time)`).
* Fallible route handlers return `Except ApiError`; each constructor of
  `ApiError` is one concrete error response of the routes.  An `Except`
  error models a request that ends with no write to the store.
* The random reference numbers (`bookingNumber`, `orderNumber`) produced by
  the pre-save hooks are passed in as parameters; no claim concerns their
  format.
-/

/-- Splits a character list at every colon, mirroring what
`String.split(':')`-style processing of a clock-time string sees.  Used to
model the parse of `'2000-01-01 HH:MM'` / `'YYYY-MM-DDTHH:MM'` strings. -/
def splitCols : List Char → List (List Char)
  | [] => [[]]
  | c :: rest =>
    let r := splitCols rest
    if c = ':' then [] :: r
    else
      match r with
      | h :: t => (c :: h) :: t
      | [] => [[c]]

/-- Reads a decimal digit string; `none` on a non-digit. -/
def digitsVal : List Char → Nat → Option Nat
  | [], acc => some acc
  | c :: rest, acc =>
    if c.isDigit then digitsVal rest (acc * 10 + (c.toNat - 48)) else none

/-- Reads a nonempty decimal digit string. -/
def parsePart (cs : List Char) : Option Nat :=
  match cs with
  | [] => none
  | _ => digitsVal cs 0

/-- Minutes since midnight denoted by a clock-time string, or `none` when
the string is not a clock time.  This models the value of
`new Date('2000-01-01 ' + time)` on minute-resolution clock strings: a
string that does not parse gives an Invalid Date there, whose comparisons
are all false, which the callers below translate to `none` propagating to
a `false` result. -/
def parseClockTime (s : String) : Option Nat :=
  match splitCols s.toList with
  | [h, m] =>
    match parsePart h, parsePart m with
    | some hh, some mm => if hh < 24 && mm < 60 then some (hh * 60 + mm) else none
    | _, _ => none
  | _ => none

/-- Route validator for `appointmentTime`: the regex
`([01]?[0-9]|2[0-3]):[0-5][0-9]` of `POST /api/bookings`, i.e. a one- or
two-digit hour below 24 and a two-digit minute below 60. -/
def validTimeString (s : String) : Bool :=
  match splitCols s.toList with
  | [h, m] =>
    (match parsePart h with
     | some hh => (decide (h.length = 1) || decide (h.length = 2)) && decide (hh < 24)
     | none => false) &&
    (match parsePart m with
     | some mm => decide (m.length = 2) && decide (mm < 60)
     | none => false)
  | _ => false

/-! Availability resolver (HealthProfessional model). -/

/-- One entry of a professional's weekly availability list
(`availabilitySchema`: day, startTime, endTime, isAvailable). -/
structure AvailabilityEntry where
  day : String
  startTime : String
  endTime : String
  isAvailable : Bool
deriving DecidableEq

/-- The time-window test of `healthProfessionalSchema.methods.isAvailable`:
the requested, start and end clock times are compared as times on the
common date 2000-01-01, both bounds inclusive. -/
def inWindow (a : AvailabilityEntry) (time : String) : Bool :=
  match parseClockTime time, parseClockTime a.startTime, parseClockTime a.endTime with
  | some r, some s, some e => decide (s ≤ r) && decide (r ≤ e)
  | _, _, _ => false

/-- Embeds `healthProfessionalSchema.methods.isAvailable` (part_001 lines
258-268): `find` the first entry whose day matches and whose `isAvailable`
flag is set, then test the requested time against that entry's window. -/
def isAvailableOn (avail : List AvailabilityEntry) (day time : String) : Bool :=
  match avail.find? (fun a => a.day == day && a.isAvailable) with
  | none => false
  | some a => inWindow a time

/-- The availability condition as the specification words it: available iff
SOME entry has a matching day, `isAvailable` true, and the requested time
inside its inclusive window.  Stated for comparison with `isAvailableOn`;
the two differ when several entries share a day. -/
def availableBySpec (avail : List AvailabilityEntry) (day time : String) : Bool :=
  avail.any (fun a => a.day == day && a.isAvailable && inWindow a time)

/-- The slice of the HealthProfessional document the booking routes read. -/
structure HealthProfessional where
  id : String
  isActive : Bool
  consultationFee : ℚ
  availability : List AvailabilityEntry
deriving DecidableEq

/-- Method form of the availability resolver. -/
def HealthProfessional.isAvailable (p : HealthProfessional) (day time : String) : Bool :=
  isAvailableOn p.availability day time

/-! Booking data model (`backend/models/Booking.js`). -/

/-- Booking lifecycle status enumeration of the schema. -/
inductive BookingStatus
  | pending
  | confirmed
  | inProgress
  | completed
  | cancelled
  | noShow
deriving DecidableEq

/-- Schema string of a booking status (used by `updateStatus`). -/
def BookingStatus.toStr : BookingStatus → String
  | .pending => "pending"
  | .confirmed => "confirmed"
  | .inProgress => "in_progress"
  | .completed => "completed"
  | .cancelled => "cancelled"
  | .noShow => "no_show"

/-- One entry of a notification log (`type`, `message`, `sentAt`,
`isRead`, the latter defaulting to false). -/
structure NotificationEntry where
  type : String
  message : String
  sentAt : Int
  isRead : Bool
deriving DecidableEq

/-- Allowed values of the Booking notification `type` enum
(Booking.js lines 136-150). -/
def bookingNotificationTypes : List String :=
  ["booking_confirmed", "reminder", "cancelled", "completed", "payment_received"]

/-- Allowed values of the Order notification `type` enum
(the orderSchema notifications field). -/
def orderNotificationTypes : List String :=
  ["order_confirmed", "preparing", "out_for_delivery", "delivered", "payment_received"]

/-- A booking rating (three sub-ratings, comment, date). -/
structure BookingRating where
  professional : ℚ
  service : ℚ
  overall : ℚ
  comment : Option String
  date : Int
deriving DecidableEq

/-- The Booking document.  `cancellationBy` is `Option String` so that the
state "field never written" is distinguishable from a written value; note
the schema declares `default: 'user'` for it, which the constructor below
applies. -/
structure Booking where
  id : String
  user : String
  healthProfessional : String
  bookingNumber : String
  appointmentDate : Int
  appointmentTime : String
  duration : Nat
  consultationType : String
  amount : ℚ
  status : BookingStatus
  paymentStatus : String
  cancellationReason : Option String
  cancellationDate : Option Int
  cancellationBy : Option String
  rating : Option BookingRating
  notifications : List NotificationEntry
deriving DecidableEq

/-- An optional requested service (`service.name`, `service.price`, both
optional in the route validators). -/
structure ServiceReq where
  name : Option String
  price : Option ℚ
deriving DecidableEq

/-- A validated create-booking request body. -/
structure BookingReq where
  healthProfessionalId : String
  appointmentDate : Int
  appointmentTime : String
  duration : Nat
  consultationType : String
  service : Option ServiceReq
deriving DecidableEq

/-- Allowed consultation types. -/
def consultationTypes : List String := ["in_person", "online", "home_visit"]

/-- The express-validator chain of `POST /api/bookings`: time-string
format, duration bounds 15..180 (the route default 30 is in bounds),
consultation type enum, and a nonnegative service price when given.  Any
failure is the 400 `Validation errors` response. -/
def validBookingReq (r : BookingReq) : Bool :=
  validTimeString r.appointmentTime &&
  (decide (15 ≤ r.duration) && decide (r.duration ≤ 180)) &&
  consultationTypes.contains r.consultationType &&
  (match r.service with
   | none => true
   | some s =>
     match s.price with
     | none => true
     | some p => decide (0 ≤ p))

/-- The appointment instant `new Date(appointmentDate + 'T' + appointmentTime)`
in milliseconds: the date's midnight plus the parsed clock time. -/
def apptDateTime (date : Int) (time : String) : Int :=
  date + ((parseClockTime time).getD 0 : Nat) * 60000

/-- The amount computation of the route:
`service?.price || healthProfessional.consultationFee`.  A missing service,
a missing price, or the falsy price 0 all fall back to the consultation
fee. -/
def bookingAmount (service : Option ServiceReq) (fee : ℚ) : ℚ :=
  match service with
  | none => fee
  | some s =>
    match s.price with
    | none => fee
    | some p => if p = 0 then fee else p

/-- Valid values of the `weekday` option of `toLocaleDateString` per
ECMA-402 (`GetOption` throws a RangeError on any other value). -/
def weekdayOptionValues : List String := ["narrow", "short", "long"]

/-- English weekday names indexed from the epoch day (1970-01-01 was a
Thursday). -/
def weekdayNames : List String :=
  ["Thursday", "Friday", "Saturday", "Sunday", "Monday", "Tuesday", "Wednesday"]

/-- Models `date.toLocaleDateString('en-US', weekday-option)`: an invalid
option value raises (RangeError), modelled as `.error ()`; a valid one
formats the weekday of the day containing the timestamp (the abbreviation
differences between the valid forms are immaterial here, since the handler
under study never reaches this branch with a valid option). -/
def toLocaleWeekday (opt : String) (ms : Int) : Except Unit String :=
  if weekdayOptionValues.contains opt then
    .ok (weekdayNames.getD ((ms / 86400000) % 7).toNat "Thursday")
  else
    .error ()

/-- The conflicting-booking query of `POST /api/bookings` (lines 82-95):
same professional, same stored appointment date, same appointment time
string, status pending or confirmed. -/
def isConflicting (b : Booking) (r : BookingReq) : Bool :=
  b.healthProfessional == r.healthProfessionalId &&
  b.appointmentDate == r.appointmentDate &&
  b.appointmentTime == r.appointmentTime &&
  (b.status == .pending || b.status == .confirmed)

/-- The document built by `new Booking({...})` in the route, with the
schema defaults applied: status `pending`, paymentStatus `pending`, no
cancellation reason or date, no rating, empty notification log — but
`cancellationBy` receives its schema default `'user'`
(Booking.js lines 100-104). -/
def newBooking (id userId bookingNumber : String) (r : BookingReq) (amount : ℚ) : Booking :=
  { id := id
    user := userId
    healthProfessional := r.healthProfessionalId
    bookingNumber := bookingNumber
    appointmentDate := r.appointmentDate
    appointmentTime := r.appointmentTime
    duration := r.duration
    consultationType := r.consultationType
    amount := amount
    status := .pending
    paymentStatus := "pending"
    cancellationReason := none
    cancellationDate := none
    cancellationBy := some "user"
    rating := none
    notifications := [] }

/-- Error responses of the routes under study. -/
inductive ApiError
  | validation
  | notFound
  | pastDate
  | unavailable
  | slotTaken
  | invalidState
  | mealsUnavailable
  | internal
deriving DecidableEq

/-- Embeds the `POST /api/bookings` handler: validator chain, professional
lookup and active check (404), future-datetime check (400), weekday
formatting with the option string `'lowercase'`, availability check,
conflicting-booking query, then construction and save of the booking. -/
def createBooking (pros : List HealthProfessional) (db : List Booking)
    (now : Int) (id userId bookingNumber : String) (r : BookingReq) :
    Except ApiError Booking :=
  if validBookingReq r = false then .error .validation
  else
    match pros.find? (fun p => p.id == r.healthProfessionalId) with
    | none => .error .notFound
    | some p =>
      if p.isActive = false then .error .notFound
      else
        let appt := apptDateTime r.appointmentDate r.appointmentTime
        if appt ≤ now then .error .pastDate
        else
          match toLocaleWeekday "lowercase" appt with
          | .error _ => .error .internal
          | .ok dayOfWeek =>
            if p.isAvailable dayOfWeek r.appointmentTime = false then .error .unavailable
            else if db.any (fun b => isConflicting b r) then .error .slotTaken
            else .ok (newBooking id userId bookingNumber r
              (bookingAmount r.service p.consultationFee))

/-- Embeds `bookingSchema.methods.canBeCancelled`: status pending or
confirmed, and the difference in hours between the stored appointment DATE
(not the combined date-time) and now exceeds 24. -/
def Booking.canBeCancelled (b : Booking) (now : Int) : Bool :=
  (b.status == .pending || b.status == .confirmed) &&
  decide ((24 : ℚ) < ((b.appointmentDate - now : Int) : ℚ) / (1000 * 60 * 60))

/-- Embeds `bookingSchema.methods.cancelBooking`: set status, reason,
date and party, and append a `cancelled` notification (a missing reason is
interpolated as the string `undefined` by the template literal). -/
def Booking.cancelBooking (b : Booking) (reason : Option String)
    (cancelledBy : String) (now : Int) : Booking :=
  { b with
    status := .cancelled
    cancellationReason := reason
    cancellationDate := some now
    cancellationBy := some cancelledBy
    notifications := b.notifications ++
      [{ type := "cancelled"
         message := "Your appointment has been cancelled. Reason: " ++ reason.getD "undefined"
         sentAt := now
         isRead := false }] }

/-- Embeds `bookingSchema.methods.addRating`. -/
def Booking.addRating (b : Booking) (profR servR overallR : ℚ)
    (comment : Option String) (now : Int) : Booking :=
  { b with rating := some ⟨profR, servR, overallR, comment, now⟩ }

/-- Embeds `bookingSchema.methods.updateStatus`.  No route of the
repository invokes this method; it is included for completeness and is
deliberately absent from the reachable-state relation below. -/
def Booking.updateStatus (b : Booking) (newStatus : BookingStatus)
    (notificationMessage : Option String) (now : Int) : Booking :=
  { b with
    status := newStatus
    notifications := b.notifications ++
      (match notificationMessage with
       | none => []
       | some msg => [{ type := newStatus.toStr, message := msg
                        sentAt := now, isRead := false }]) }

/-- Embeds the `PUT /api/bookings/:id/cancel` handler: lookup by id and
owner (404), `canBeCancelled` guard (400), then `cancelBooking(reason,
'user')`. -/
def cancelBookingRoute (db : List Booking) (bookingId userId : String)
    (reason : Option String) (now : Int) : Except ApiError Booking :=
  match db.find? (fun b => b.id == bookingId && b.user == userId) with
  | none => .error .notFound
  | some b =>
    if b.canBeCancelled now = false then .error .invalidState
    else .ok (b.cancelBooking reason "user" now)

/-- Booking documents reachable through the booking routes of the
repository: creation (`new Booking` with schema defaults), user
cancellation guarded by `canBeCancelled`, and rating guarded by
completed status.  `updateStatus` has no caller in any route and so does
not contribute transitions. -/
inductive ReachableBooking : Booking → Prop
  | created (id userId bookingNumber : String) (r : BookingReq) (fee : ℚ) :
      ReachableBooking (newBooking id userId bookingNumber r
        (bookingAmount r.service fee))
  | cancelled (b : Booking) (reason : Option String) (now : Int) :
      ReachableBooking b → b.canBeCancelled now = true →
      ReachableBooking (b.cancelBooking reason "user" now)
  | rated (b : Booking) (profR servR overallR : ℚ)
      (comment : Option String) (now : Int) :
      ReachableBooking b → b.status = .completed →
      ReachableBooking (b.addRating profR servR overallR comment now)

/-! Order data model (the orderSchema and the orders router). -/

/-- The slice of a Meal document the order route reads. -/
structure Meal where
  id : String
  price : ℚ
  isActive : Bool
deriving DecidableEq

/-- One requested line item of `POST /api/orders`. -/
structure OrderItemReq where
  mealId : String
  quantity : Nat
  specialInstructions : Option String
deriving DecidableEq

/-- One persisted line item (`orderItemSchema`): meal reference, quantity,
unit price snapshot, computed line total. -/
structure OrderItem where
  meal : String
  quantity : Nat
  price : ℚ
  totalPrice : ℚ
  specialInstructions : Option String
deriving DecidableEq

/-- Order lifecycle status enumeration. -/
inductive OrderStatus
  | pending
  | confirmed
  | preparing
  | outForDelivery
  | delivered
  | cancelled
deriving DecidableEq

/-- A structured delivery address (required street, city, county). -/
structure DeliveryAddress where
  street : String
  city : String
  county : String
deriving DecidableEq

/-- Order contact info (required name and phone). -/
structure ContactInfo where
  name : String
  phone : String
  email : Option String
deriving DecidableEq

/-- An order rating (food, delivery, overall). -/
structure OrderRating where
  food : ℚ
  delivery : ℚ
  overall : ℚ
  comment : Option String
  date : Int
deriving DecidableEq

/-- The Order document.  The schema has no cancellation timestamp and no
cancellation party field; `cancellationReason` is its only cancellation
metadata. -/
structure Order where
  id : String
  user : String
  orderNumber : String
  items : List OrderItem
  subtotal : ℚ
  deliveryFee : ℚ
  tax : ℚ
  total : ℚ
  deliveryAddress : DeliveryAddress
  contactInfo : ContactInfo
  paymentMethod : String
  paymentStatus : String
  orderStatus : OrderStatus
  deliveryTimeEstimated : Option Int
  deliveryTimeActual : Option Int
  cancellationReason : Option String
  rating : Option OrderRating
  notifications : List NotificationEntry
deriving DecidableEq

/-- Allowed payment methods of the order route. -/
def orderPaymentMethods : List String :=
  ["mpesa", "cash_on_delivery", "bank_transfer", "credit_card"]

/-- The express-validator chain of `POST /api/orders`: nonempty items,
each quantity at least 1, required address and contact fields, payment
method enum. -/
def validOrderReq (items : List OrderItemReq) (addr : DeliveryAddress)
    (contact : ContactInfo) (paymentMethod : String) : Bool :=
  !items.isEmpty &&
  items.all (fun it => decide (1 ≤ it.quantity)) &&
  addr.street != "" && addr.city != "" && addr.county != "" &&
  contact.name != "" && contact.phone != "" &&
  orderPaymentMethods.contains paymentMethod

/-- The `items.map` of the order route, building each persisted line item
from the resolved meal: unit price snapshot `meal.price`, line total
`meal.price * quantity`.  A `find` miss makes the JavaScript throw
(`meal` undefined), modelled as `none`, which the handler sends to its
catch-all 500. -/
def buildOrderItems (meals : List Meal) : List OrderItemReq → Option (List OrderItem)
  | [] => some []
  | it :: rest =>
    match meals.find? (fun m => m.id == it.mealId) with
    | none => none
    | some m =>
      (buildOrderItems meals rest).map
        (fun tl =>
          { meal := it.mealId
            quantity := it.quantity
            price := m.price
            totalPrice := m.price * (it.quantity : ℚ)
            specialInstructions := it.specialInstructions } :: tl)

/-- The order document persisted by the handler: the totals computation
(`deliveryFee = subtotal > 1000 ? 0 : 200`, `tax = subtotal * 0.16`,
`total = subtotal + deliveryFee + tax`), status and payment-status
defaults, and the estimated delivery time `now + 45 minutes` set by
`calculateDeliveryTime` right after the save. -/
def mkOrder (orderItems : List OrderItem) (addr : DeliveryAddress)
    (contact : ContactInfo) (paymentMethod : String) (now : Int)
    (id orderNumber userId : String) : Order :=
  let subtotal := (orderItems.map (fun i => i.totalPrice)).sum
  let deliveryFee : ℚ := if 1000 < subtotal then 0 else 200
  let tax : ℚ := subtotal * (16 / 100)
  let total := subtotal + deliveryFee + tax
  { id := id
    user := userId
    orderNumber := orderNumber
    items := orderItems
    subtotal := subtotal
    deliveryFee := deliveryFee
    tax := tax
    total := total
    deliveryAddress := addr
    contactInfo := contact
    paymentMethod := paymentMethod
    paymentStatus := "pending"
    orderStatus := .pending
    deliveryTimeEstimated := some (now + 45 * 60 * 1000)
    deliveryTimeActual := none
    cancellationReason := none
    rating := none
    notifications := [] }

/-- The handler body after the validator chain: resolution of the
referenced meals restricted to active ones, the `meals.length !==
items.length` whole-order rejection, line-item construction, and the
persisted document. -/
def createOrderBody (db : List Meal) (items : List OrderItemReq)
    (addr : DeliveryAddress) (contact : ContactInfo) (paymentMethod : String)
    (now : Int) (id orderNumber userId : String) : Except ApiError Order :=
  let mealIds := items.map (fun it => it.mealId)
  let meals := db.filter (fun m => mealIds.contains m.id && m.isActive)
  if meals.length ≠ items.length then .error .mealsUnavailable
  else
    match buildOrderItems meals items with
    | none => .error .internal
    | some orderItems =>
      .ok (mkOrder orderItems addr contact paymentMethod now id orderNumber userId)

/-- Embeds the `POST /api/orders` handler: validator chain, then the body
above. -/
def createOrder (db : List Meal) (items : List OrderItemReq)
    (addr : DeliveryAddress) (contact : ContactInfo) (paymentMethod : String)
    (now : Int) (id orderNumber userId : String) : Except ApiError Order :=
  if validOrderReq items addr contact paymentMethod = false then .error .validation
  else createOrderBody db items addr contact paymentMethod now id orderNumber userId

/-- Embeds `orderSchema.methods.canBeCancelled`: status pending or
confirmed (no time window, unlike bookings). -/
def Order.canBeCancelled (o : Order) : Bool :=
  o.orderStatus == .pending || o.orderStatus == .confirmed

/-- Embeds the `PUT /api/orders/:id/cancel` handler: lookup by id and
owner (404), `canBeCancelled` guard (400), then the in-place mutation
`orderStatus = 'cancelled'; cancellationReason = reason` followed by a
save — nothing else is written. -/
def cancelOrderRoute (db : List Order) (orderId userId : String)
    (reason : Option String) : Except ApiError Order :=
  match db.find? (fun o => o.id == orderId && o.user == userId) with
  | none => .error .notFound
  | some o =>
    if o.canBeCancelled = false then .error .invalidState
    else .ok { o with orderStatus := .cancelled, cancellationReason := reason }

/-! Concrete fixtures used by the theorems below. -/

/-- A professional with the Monday 08:00-17:00 window of the scenario. -/
def proAvail : HealthProfessional :=
  { id := "p1", isActive := true, consultationFee := 500,
    availability := [⟨"monday", "08:00", "17:00", true⟩] }

/-- The single-window Monday availability list of the scenario. -/
def mondayWindow : List AvailabilityEntry := [⟨"monday", "08:00", "17:00", true⟩]

/-- Two available windows on the same Monday. -/
def twoWindows : List AvailabilityEntry :=
  [⟨"monday", "08:00", "10:00", true⟩, ⟨"monday", "12:00", "14:00", true⟩]

/-! Theorems. -/

/-- C3, counterexample: with two available Monday windows 08:00-10:00 and
12:00-14:00, a Monday request at 13:00 lies inside SOME matching available
entry (the second), yet the resolver answers false, because `find` stops
at the first matching-day available entry and only tests its window.  This
refutes the claimed if-and-only-if. -/
theorem availability_first_match_counterexample :
    isAvailableOn twoWindows "monday" "13:00" = false ∧
    availableBySpec twoWindows "monday" "13:00" = true := by
  decide

/-- C3, amended: when at most one availability entry is both available and
matches the requested day, the resolver answers true exactly when some
entry has a matching day, `isAvailable` true, and the requested time within
its inclusive window; and on the scenario list (monday 08:00-17:00) the
requests 08:00 and 17:00 are available while 07:59 is not. -/
theorem availability_resolver_amended :
    (∀ (avail : List AvailabilityEntry) (day time : String),
       (∀ a ∈ avail, ∀ b ∈ avail, a.day = day → b.day = day →
          a.isAvailable = true → b.isAvailable = true → a = b) →
       (isAvailableOn avail day time = true ↔ availableBySpec avail day time = true)) ∧
    isAvailableOn mondayWindow "monday" "08:00" = true ∧
    isAvailableOn mondayWindow "monday" "07:59" = false ∧
    isAvailableOn mondayWindow "monday" "17:00" = true := by
  refine ⟨?_, by decide, by decide, by decide⟩
  intro avail day time huniq
  unfold isAvailableOn availableBySpec
  cases hf : avail.find? (fun a => a.day == day && a.isAvailable) with
  | none =>
    simp only [List.any_eq_true]
    constructor
    · intro h; exact absurd h (by simp)
    · rintro ⟨a, ha, hpa⟩
      have hnone := List.find?_eq_none.mp hf a ha
      simp only [Bool.and_eq_true] at hpa hnone
      exact absurd ⟨hpa.1.1, hpa.1.2⟩ hnone
  | some a =>
    have hpa := List.find?_some hf
    have hmem := List.mem_of_find?_eq_some hf
    simp only [Bool.and_eq_true, beq_iff_eq] at hpa
    constructor
    · intro hw
      simp only [List.any_eq_true]
      exact ⟨a, hmem, by simpa [hpa.1, hpa.2] using hw⟩
    · intro h
      simp only [List.any_eq_true, Bool.and_eq_true, beq_iff_eq] at h
      obtain ⟨b, hb, ⟨hbd, hba⟩, hbw⟩ := h
      have hba' : b = a := huniq b hb a hmem hbd hpa.1 hba hpa.2
      exact hba' ▸ hbw

/-- Witness for the amended C3 theorem: its uniqueness hypothesis holds on
the concrete scenario list, so the equivalence applies there. -/
theorem availability_resolver_amended_witness :
    isAvailableOn mondayWindow "monday" "08:00" = true ↔
    availableBySpec mondayWindow "monday" "08:00" = true :=
  availability_resolver_amended.1 mondayWindow "monday" "08:00" (by decide)

/-- The stored appointment date (midnight) never exceeds the combined
appointment date-time. -/
lemma le_apptDateTime (date : Int) (time : String) : date ≤ apptDateTime date time := by
  unfold apptDateTime
  have h : (0 : Int) ≤ (((parseClockTime time).getD 0 : Nat) : Int) * 60000 := by positivity
  linarith

/-- Monotonicity of the hour-difference computation in the instant. -/
lemma hoursDiff_mono (d1 d2 now : Int) (h : d1 ≤ d2) :
    ((d1 - now : Int) : ℚ) / (1000 * 60 * 60) ≤ ((d2 - now : Int) : ℚ) / (1000 * 60 * 60) := by
  have h1 : ((d1 - now : Int) : ℚ) ≤ ((d2 - now : Int) : ℚ) := by
    exact_mod_cast sub_le_sub_right h now
  have h2 : (0 : ℚ) < 1000 * 60 * 60 := by norm_num
  exact (div_le_div_iff_of_pos_right h2).mpr h1

/-- C4 (confirmed): a user cancellation succeeds only if the booking is
pending or confirmed and the combined appointment date-time is more than
24 hours away; and whenever the appointment is less than 24 hours away the
route answers InvalidState, whatever the status.  (The source compares now
against the stored appointment DATE, i.e. midnight, which is at most the
combined date-time, so both directions follow.) -/
theorem booking_cancellation_window :
    (∀ (db : List Booking) (bookingId userId : String) (reason : Option String)
       (now : Int) (out : Booking),
       cancelBookingRoute db bookingId userId reason now = .ok out →
       ∃ b, db.find? (fun x => x.id == bookingId && x.user == userId) = some b ∧
         (b.status = .pending ∨ b.status = .confirmed) ∧
         (24 : ℚ) < ((apptDateTime b.appointmentDate b.appointmentTime - now : Int) : ℚ)
           / (1000 * 60 * 60)) ∧
    (∀ (db : List Booking) (bookingId userId : String) (reason : Option String)
       (now : Int) (b : Booking),
       db.find? (fun x => x.id == bookingId && x.user == userId) = some b →
       ((apptDateTime b.appointmentDate b.appointmentTime - now : Int) : ℚ)
         / (1000 * 60 * 60) < 24 →
       cancelBookingRoute db bookingId userId reason now = .error .invalidState) := by
  constructor
  · intro db bookingId userId reason now out h
    simp only [cancelBookingRoute] at h
    split at h
    · simp at h
    next b hfind =>
      refine ⟨b, hfind, ?_⟩
      split at h
      · simp at h
      · rename_i hcan
        have hcan' : b.canBeCancelled now = true := by
          rcases Bool.eq_false_or_eq_true (b.canBeCancelled now) with hh | hh
          · exact hh
          · exact absurd hh hcan
        rw [Booking.canBeCancelled, Bool.and_eq_true] at hcan'
        obtain ⟨hstat, hhours⟩ := hcan'
        constructor
        · simpa [Bool.or_eq_true, beq_iff_eq] using hstat
        · have h24 : (24 : ℚ) < ((b.appointmentDate - now : Int) : ℚ) / (1000 * 60 * 60) :=
            of_decide_eq_true hhours
          exact lt_of_lt_of_le h24
            (hoursDiff_mono _ _ _ (le_apptDateTime b.appointmentDate b.appointmentTime))
  · intro db bookingId userId reason now b hf hlt
    have hdate : ((b.appointmentDate - now : Int) : ℚ) / (1000 * 60 * 60) < 24 :=
      lt_of_le_of_lt
        (hoursDiff_mono _ _ _ (le_apptDateTime b.appointmentDate b.appointmentTime)) hlt
    have hcan : b.canBeCancelled now = false := by
      unfold Booking.canBeCancelled
      have hd : decide ((24 : ℚ) < ((b.appointmentDate - now : Int) : ℚ) / (1000 * 60 * 60))
          = false := decide_eq_false (not_lt.mpr (le_of_lt hdate))
      rw [hd, Bool.and_false]
    simp only [cancelBookingRoute, hf, hcan]
    rfl

/-- A concrete booking whose appointment is eight hours away. -/
def bC4 : Booking :=
  { id := "b1", user := "u1", healthProfessional := "p1", bookingNumber := "BK1",
    appointmentDate := 0, appointmentTime := "08:00", duration := 30,
    consultationType := "in_person", amount := 500, status := .pending,
    paymentStatus := "pending", cancellationReason := none, cancellationDate := none,
    cancellationBy := some "user", rating := none, notifications := [] }

/-- Witness for C4: a pending booking eight hours before its appointment
cannot be cancelled. -/
theorem booking_cancellation_window_witness :
    cancelBookingRoute [bC4] "b1" "u1" none 0 = .error .invalidState :=
  booking_cancellation_window.2 [bC4] "b1" "u1" none 0 bC4 rfl (by
    have h : apptDateTime bC4.appointmentDate bC4.appointmentTime = 28800000 := by decide
    rw [h]
    norm_num)

/-- A create-booking request whose appointment is far in the future. -/
def rDemo : BookingReq :=
  { healthProfessionalId := "p1", appointmentDate := 200000000,
    appointmentTime := "10:00", duration := 30,
    consultationType := "in_person", service := none }

/-- A freshly created booking (the document the route saves). -/
def b0 : Booking := newBooking "b0" "u0" "BK0" rDemo (bookingAmount rDemo.service 500)

/-- C7, counterexample: the claim fails in both directions.  A freshly
created booking (status pending) already carries `cancellationBy = 'user'`
through the schema default, so a non-cancelled booking does have one of
the three fields set; and a cancellation submitted without a reason leaves
`cancellationReason` unset on a cancelled booking. -/
theorem cancellation_metadata_counterexample :
    (¬ ∀ b, ReachableBooking b → b.status ≠ .cancelled →
        b.cancellationReason = none ∧ b.cancellationDate = none ∧
        b.cancellationBy = none) ∧
    (¬ ∀ b, ReachableBooking b → b.status = .cancelled →
        b.cancellationReason.isSome = true ∧ b.cancellationDate.isSome = true ∧
        b.cancellationBy.isSome = true) := by
  constructor
  · intro h
    have hb0 : ReachableBooking b0 := ReachableBooking.created "b0" "u0" "BK0" rDemo 500
    have hby := (h b0 hb0 (by decide)).2.2
    simp [b0, newBooking] at hby
  · intro h
    have hb0 : ReachableBooking b0 := ReachableBooking.created "b0" "u0" "BK0" rDemo 500
    have hcan : b0.canBeCancelled 0 = true := by
      rw [Booking.canBeCancelled]
      have hstat : (b0.status == BookingStatus.pending ||
          b0.status == BookingStatus.confirmed) = true := by decide
      rw [hstat, Bool.true_and, decide_eq_true_eq]
      show (24 : ℚ) < ((b0.appointmentDate - 0 : Int) : ℚ) / (1000 * 60 * 60)
      have hd : b0.appointmentDate = 200000000 := by decide
      rw [hd]
      norm_num
    have hreason := (h (b0.cancelBooking none "user" 0)
      (ReachableBooking.cancelled b0 none 0 hb0 hcan)
      (by simp [Booking.cancelBooking])).1
    simp [Booking.cancelBooking, b0, newBooking] at hreason

/-- C7 (amended): over the bookings reachable through the routes, a
cancelled booking always has `cancellationDate` set and `cancellationBy`
set to `'user'` (its reason is whatever the cancel request supplied,
possibly absent); a non-cancelled booking has no cancellation reason and
no cancellation date, but `cancellationBy` already holds the schema
default `'user'`. -/
theorem cancellation_metadata_invariant :
    ∀ b, ReachableBooking b →
      (b.status = .cancelled →
         b.cancellationDate.isSome = true ∧ b.cancellationBy = some "user") ∧
      (b.status ≠ .cancelled →
         b.cancellationReason = none ∧ b.cancellationDate = none ∧
         b.cancellationBy = some "user") := by
  intro b hb
  induction hb with
  | created id userId bookingNumber r fee =>
    constructor
    · intro hst; simp [newBooking] at hst
    · intro _; simp [newBooking]
  | cancelled b reason now hb hcan ih =>
    constructor
    · intro _; simp [Booking.cancelBooking]
    · intro hst; simp [Booking.cancelBooking] at hst
  | rated b profR servR overallR comment now hb hst ih =>
    simpa [Booking.addRating] using ih

/-- Witness for the amended C7 theorem, applied to the concrete freshly
created booking. -/
theorem cancellation_metadata_invariant_witness :
    (b0.status = .cancelled →
       b0.cancellationDate.isSome = true ∧ b0.cancellationBy = some "user") ∧
    (b0.status ≠ .cancelled →
       b0.cancellationReason = none ∧ b0.cancellationDate = none ∧
       b0.cancellationBy = some "user") :=
  cancellation_metadata_invariant b0
    (ReachableBooking.created "b0" "u0" "BK0" rDemo 500)

/-- C9 (confirmed): the create-booking handler formats the day of week
with the weekday option value `'lowercase'`, which is not among the valid
option values, so the formatting raises for every input; hence every
request that passes the professional-exists/active check and the
future-datetime check ends in the 500 InternalError path, never reaching
the availability or conflict branches, and no booking is persisted. -/
theorem weekday_option_bug_forces_internal :
    weekdayOptionValues.contains "lowercase" = false ∧
    (∀ ms : Int, toLocaleWeekday "lowercase" ms = .error ()) ∧
    ∀ (pros : List HealthProfessional) (db : List Booking) (now : Int)
      (id userId bookingNumber : String) (r : BookingReq) (p : HealthProfessional),
      validBookingReq r = true →
      pros.find? (fun q => q.id == r.healthProfessionalId) = some p →
      p.isActive = true →
      now < apptDateTime r.appointmentDate r.appointmentTime →
      createBooking pros db now id userId bookingNumber r = .error .internal := by
  refine ⟨by decide, fun ms => rfl, ?_⟩
  intro pros db now id userId bookingNumber r p hvalid hfind hactive hfuture
  have hnotle : ¬ (apptDateTime r.appointmentDate r.appointmentTime ≤ now) :=
    not_le.mpr hfuture
  have hw : toLocaleWeekday "lowercase"
      (apptDateTime r.appointmentDate r.appointmentTime) = .error () := rfl
  simp [createBooking, hvalid, hfind, hactive, hnotle, hw]

/-- A valid future-dated request addressed at the fixture professional. -/
def rC9 : BookingReq :=
  { healthProfessionalId := "p1", appointmentDate := 1000000000000,
    appointmentTime := "10:00", duration := 30,
    consultationType := "in_person", service := none }

/-- Witness for C9: a concrete fully valid request against the fixture
professional with no competing bookings still returns InternalError. -/
theorem weekday_option_bug_forces_internal_witness :
    createBooking [proAvail] [] 0 "id9" "u9" "BK9" rC9 = .error .internal :=
  weekday_option_bug_forces_internal.2.2 [proAvail] [] 0 "id9" "u9" "BK9" rC9 proAvail
    (by decide) rfl rfl (by decide)

/-- The existing pending booking occupying the slot requested by `rC2`. -/
def rC2 : BookingReq :=
  { healthProfessionalId := "p1", appointmentDate := 1000000000000,
    appointmentTime := "09:00", duration := 30,
    consultationType := "online", service := none }

/-- A stored pending booking at the same professional, date and time as
`rC2`. -/
def bConf : Booking :=
  { id := "bc", user := "u2", healthProfessional := "p1", bookingNumber := "BKC",
    appointmentDate := 1000000000000, appointmentTime := "09:00", duration := 30,
    consultationType := "online", amount := 500, status := .pending,
    paymentStatus := "pending", cancellationReason := none, cancellationDate := none,
    cancellationBy := some "user", rating := none, notifications := [] }

/-- C2 (code-bug evidence): the stored booking satisfies the conflict
query for the incoming request (same professional, same date, same time
string, status pending), yet the handler returns InternalError, not the
Conflict response, because the weekday-formatting defect fires first; the
conflict branch is unreachable. -/
theorem conflicting_request_hits_internal :
    isConflicting bConf rC2 = true ∧
    createBooking [proAvail] [bConf] 0 "id2" "u2b" "BK2" rC2 = .error .internal := by
  exact ⟨by decide, rfl⟩

/-- A fully valid request used to evaluate the success path. -/
def rC8 : BookingReq :=
  { healthProfessionalId := "p1", appointmentDate := 1000000000000,
    appointmentTime := "11:00", duration := 30,
    consultationType := "in_person", service := none }

/-- C8 (code-bug evidence): no create-booking request ever reaches the
persist step — the concrete fully valid request below ends in
InternalError — so the claimed post-conditions about the persisted amount
and status never materialise.  The last three conjuncts document the
amount computation itself: a service with the (validator-accepted) price 0
falls back to the consultation fee because `||` treats 0 as falsy, a
positive service price is used, and a missing service falls back to the
fee. -/
theorem booking_success_path_unreachable :
    createBooking [proAvail] [] 0 "id8" "u8" "BK8" rC8 = .error .internal ∧
    bookingAmount (some { name := some "X", price := some 0 }) 500 = 500 ∧
    bookingAmount (some { name := some "X", price := some 800 }) 500 = 800 ∧
    bookingAmount none 500 = 500 := by
  refine ⟨rfl, by norm_num [bookingAmount], by norm_num [bookingAmount], rfl⟩

/-- A past-dated request referencing an unknown professional. -/
def rPast : BookingReq :=
  { healthProfessionalId := "pX", appointmentDate := 0,
    appointmentTime := "08:00", duration := 30,
    consultationType := "in_person", service := none }

/-- C5, counterexample: a request whose appointment datetime is in the
past but whose professional id is unknown fails with NotFound, not with
the ValidationError the claim promises for every past-dated request — the
professional lookup precedes the future-datetime check. -/
theorem past_request_unknown_professional_counterexample :
    apptDateTime rPast.appointmentDate rPast.appointmentTime ≤ 1000000000000 ∧
    createBooking [] [] 1000000000000 "idp" "up" "BKP" rPast = .error .notFound ∧
    ApiError.notFound ≠ ApiError.pastDate ∧
    ApiError.notFound ≠ ApiError.validation := by
  exact ⟨by decide, rfl, by decide, by decide⟩

/-- C5 (amended): every create-booking request with a well-formed body
whose referenced professional exists and is active, and whose combined
appointment date-time is not in the future, fails with the past-date
ValidationError — for every availability schedule and every state of the
booking store, i.e. before the availability check and the conflict check
can influence the outcome. -/
theorem past_datetime_rejected_before_checks :
    ∀ (pros : List HealthProfessional) (db : List Booking) (now : Int)
      (id userId bookingNumber : String) (r : BookingReq) (p : HealthProfessional),
      validBookingReq r = true →
      pros.find? (fun q => q.id == r.healthProfessionalId) = some p →
      p.isActive = true →
      apptDateTime r.appointmentDate r.appointmentTime ≤ now →
      createBooking pros db now id userId bookingNumber r = .error .pastDate := by
  intro pros db now id userId bookingNumber r p hvalid hfind hactive hpast
  simp [createBooking, hvalid, hfind, hactive, hpast]

/-- A past-dated request referencing the fixture professional. -/
def rPastKnown : BookingReq :=
  { healthProfessionalId := "p1", appointmentDate := 0,
    appointmentTime := "08:00", duration := 30,
    consultationType := "in_person", service := none }

/-- Witness for the amended C5 theorem at a concrete past-dated request:
the professional exists and is active, the appointment is in the past, and
the response is the past-date ValidationError. -/
theorem past_datetime_rejected_before_checks_witness :
    createBooking [proAvail] [] 1000000000000 "idw" "uw" "BKW" rPastKnown
      = .error .pastDate :=
  past_datetime_rejected_before_checks [proAvail] [] 1000000000000 "idw" "uw" "BKW"
    rPastKnown proAvail (by decide) rfl rfl (by decide)

/-- Every line item built by the handler has its line total equal to the
snapshotted unit price times the quantity. -/
lemma buildOrderItems_totals (meals : List Meal) :
    ∀ (its : List OrderItemReq) (l : List OrderItem),
      buildOrderItems meals its = some l →
      ∀ i ∈ l, i.totalPrice = i.price * (i.quantity : ℚ) := by
  intro its
  induction its with
  | nil =>
    intro l h i hi
    simp only [buildOrderItems, Option.some.injEq] at h
    subst h
    simp at hi
  | cons it rest ih =>
    intro l h i hi
    simp only [buildOrderItems] at h
    cases hf : meals.find? (fun m => m.id == it.mealId) with
    | none => rw [hf] at h; simp at h
    | some m =>
      rw [hf] at h
      cases hb : buildOrderItems meals rest with
      | none => rw [hb] at h; simp at h
      | some tl =>
        rw [hb] at h
        simp only [Option.map_some', Option.some.injEq] at h
        subst h
        rcases List.mem_cons.mp hi with hi1 | hi2
        · subst hi1; rfl
        · exact ih tl hb i hi2

/-- Meals and request of the pricing scenario: meal A at 150 ordered
twice, meal B at 450 ordered once. -/
def demoMeals : List Meal := [⟨"mealA", 150, true⟩, ⟨"mealB", 450, true⟩]

/-- The two line items of the pricing scenario. -/
def demoItems : List OrderItemReq := [⟨"mealA", 2, none⟩, ⟨"mealB", 1, none⟩]

/-- A delivery address satisfying the validators. -/
def demoAddr : DeliveryAddress := ⟨"Moi Ave", "Nairobi", "Nairobi"⟩

/-- Contact info satisfying the validators. -/
def demoContact : ContactInfo := ⟨"Jane", "0700000000", none⟩

/-- C1 (confirmed): every successfully created order satisfies the totals
formula — subtotal is the sum over its persisted line items of unit price
snapshot times quantity, the delivery fee is 0 exactly when the subtotal
exceeds 1000 and otherwise 200, the tax is 16 percent of the subtotal, and
the total is their sum; and the concrete scenario (150 times 2 plus 450
times 1) yields subtotal 750, delivery fee 200, tax 120, total 1070. -/
theorem order_totals_formula :
    (∀ (db : List Meal) (items : List OrderItemReq) (addr : DeliveryAddress)
       (contact : ContactInfo) (pm : String) (now : Int) (oid onum uid : String)
       (o : Order),
       createOrder db items addr contact pm now oid onum uid = .ok o →
       o.subtotal = (o.items.map fun i => i.price * (i.quantity : ℚ)).sum ∧
       o.deliveryFee = (if 1000 < o.subtotal then (0 : ℚ) else 200) ∧
       o.tax = (16 / 100 : ℚ) * o.subtotal ∧
       o.total = o.subtotal + o.deliveryFee + o.tax) ∧
    Except.map (fun o => (o.subtotal, o.deliveryFee, o.tax, o.total))
        (createOrder demoMeals demoItems demoAddr demoContact "mpesa" 0 "o1" "MH1" "u1")
      = .ok ((750 : ℚ), (200 : ℚ), (120 : ℚ), (1070 : ℚ)) := by
  constructor
  · intro db items addr contact pm now oid onum uid o h
    simp only [createOrder] at h
    split at h
    · simp at h
    · simp only [createOrderBody] at h
      split at h
      · simp at h
      · split at h
        · simp at h
        · rename_i l hbuild
          simp only [Except.ok.injEq] at h
          subst h
          have hml : ∀ i ∈ l, i.totalPrice = i.price * (i.quantity : ℚ) :=
            buildOrderItems_totals _ _ _ hbuild
          refine ⟨?_, rfl, mul_comm _ _, rfl⟩
          have hmap : l.map (fun i => i.price * (i.quantity : ℚ))
              = l.map (fun i => i.totalPrice) :=
            List.map_congr_left fun i hi => (hml i hi).symm
          show (l.map fun i => i.totalPrice).sum
            = (l.map fun i => i.price * (i.quantity : ℚ)).sum
          rw [hmap]
  · simp +decide [createOrder, createOrderBody, mkOrder, validOrderReq,
      buildOrderItems, demoMeals, demoItems, demoAddr, demoContact, Except.map]
    norm_num

/-- The order document the scenario produces. -/
def demoOrder : Order :=
  { id := "o1", user := "u1", orderNumber := "MH1",
    items := [⟨"mealA", 2, 150, 300, none⟩, ⟨"mealB", 1, 450, 450, none⟩],
    subtotal := 750, deliveryFee := 200, tax := 120, total := 1070,
    deliveryAddress := demoAddr, contactInfo := demoContact,
    paymentMethod := "mpesa", paymentStatus := "pending", orderStatus := .pending,
    deliveryTimeEstimated := some 2700000, deliveryTimeActual := none,
    cancellationReason := none, rating := none, notifications := [] }

/-- Witness for C1: the scenario order is created successfully and the
formula holds on it. -/
theorem order_totals_formula_witness :
    demoOrder.subtotal = (demoOrder.items.map fun i => i.price * (i.quantity : ℚ)).sum ∧
    demoOrder.deliveryFee = (if 1000 < demoOrder.subtotal then (0 : ℚ) else 200) ∧
    demoOrder.tax = (16 / 100 : ℚ) * demoOrder.subtotal ∧
    demoOrder.total = demoOrder.subtotal + demoOrder.deliveryFee + demoOrder.tax :=
  order_totals_formula.1 demoMeals demoItems demoAddr demoContact "mpesa" 0 "o1" "MH1" "u1"
    demoOrder (by
      simp +decide [createOrder, createOrderBody, mkOrder, validOrderReq,
        buildOrderItems, demoMeals, demoItems, demoAddr, demoContact, demoOrder]
      norm_num)

/-- The single active meal of the duplicate-items counterexample. -/
def dupMeal : Meal := ⟨"mealA", 100, true⟩

/-- Two item entries referencing the same (existing, active) meal. -/
def dupItems : List OrderItemReq := [⟨"mealA", 1, none⟩, ⟨"mealA", 2, none⟩]

/-- C6, counterexample: a request whose two item entries reference the same
existing active meal is rejected with the meals-unavailable error, although
no referenced meal is missing or inactive and the count of resolved active
meals (1) equals the count of requested DISTINCT item entries (1) — the
code compares against the total entry count, not the distinct count. -/
theorem duplicate_meal_items_counterexample :
    createOrder [dupMeal] dupItems demoAddr demoContact "mpesa" 0 "o2" "MH2" "u2"
      = .error .mealsUnavailable ∧
    dupItems.all (fun it => [dupMeal].any fun m => m.id == it.mealId && m.isActive)
      = true ∧
    ([dupMeal].filter fun m =>
        ((dupItems.map fun it => it.mealId).dedup).contains m.id && m.isActive).length
      = ((dupItems.map fun it => it.mealId).dedup).length := by
  refine ⟨rfl, by decide, by decide⟩

/-- C6 (amended): order creation fails with ValidationError on an empty
items list; and, for a request passing the validator chain, it fails with
the meals-unavailable rejection exactly when the number of resolved
distinct active meals differs from the TOTAL number of requested item
entries — so duplicate references to the same meal are rejected as a
whole-order failure too, and no partial order is ever persisted. -/
theorem order_meal_resolution_gate :
    (∀ (db : List Meal) (addr : DeliveryAddress) (contact : ContactInfo)
       (pm : String) (now : Int) (oid onum uid : String),
       createOrder db [] addr contact pm now oid onum uid = .error .validation) ∧
    (∀ (db : List Meal) (items : List OrderItemReq) (addr : DeliveryAddress)
       (contact : ContactInfo) (pm : String) (now : Int) (oid onum uid : String),
       validOrderReq items addr contact pm = true →
       (createOrder db items addr contact pm now oid onum uid
           = .error .mealsUnavailable ↔
         (db.filter fun m =>
             (items.map fun it => it.mealId).contains m.id && m.isActive).length
           ≠ items.length)) := by
  constructor
  · intro db addr contact pm now oid onum uid
    have hv : validOrderReq [] addr contact pm = false := by
      simp [validOrderReq]
    simp [createOrder, hv]
  · intro db items addr contact pm now oid onum uid hv
    have hco : createOrder db items addr contact pm now oid onum uid
        = createOrderBody db items addr contact pm now oid onum uid := by
      simp [createOrder, hv]
    rw [hco]
    simp only [createOrderBody]
    by_cases hc : (db.filter fun m =>
        (items.map fun it => it.mealId).contains m.id && m.isActive).length
        = items.length
    · rw [if_neg (not_not_intro hc)]
      constructor
      · intro h
        cases hb : buildOrderItems
            (db.filter fun m =>
              (items.map fun it => it.mealId).contains m.id && m.isActive) items with
        | none => rw [hb] at h; simp at h
        | some l => rw [hb] at h; simp at h
      · intro hne; exact absurd hc hne
    · rw [if_pos hc]
      exact iff_of_true rfl hc

/-- Witness for the amended C6 theorem: a single-entry request resolving
its meal passes the availability gate (the two counts agree, so the
meals-unavailable rejection does not fire). -/
theorem order_meal_resolution_gate_witness :
    createOrder [dupMeal] [⟨"mealA", 1, none⟩] demoAddr demoContact "mpesa" 0
        "o3" "MH3" "u3" = .error .mealsUnavailable ↔
      ([dupMeal].filter fun m =>
          (([⟨"mealA", 1, none⟩] : List OrderItemReq).map fun it => it.mealId).contains m.id
            && m.isActive).length
        ≠ ([⟨"mealA", 1, none⟩] : List OrderItemReq).length :=
  order_meal_resolution_gate.2 [dupMeal] [⟨"mealA", 1, none⟩] demoAddr demoContact
    "mpesa" 0 "o3" "MH3" "u3" (by decide)

/-- C10 (confirmed): cancelling an order mutates only its status (to
cancelled) and its cancellation reason; every other persisted field is
unchanged — no cancellation timestamp or initiating party exists in the
Order schema, and no notification entry is appended.  The Order
notification type enumeration has no `cancelled` kind, while the Booking
enumeration does, and booking cancellation does append a `cancelled`
notification. -/
theorem order_cancel_frame :
    (∀ (db : List Order) (orderId userId : String) (reason : Option String)
       (o out : Order),
       db.find? (fun x => x.id == orderId && x.user == userId) = some o →
       cancelOrderRoute db orderId userId reason = .ok out →
       out.orderStatus = .cancelled ∧ out.cancellationReason = reason ∧
       out.id = o.id ∧ out.user = o.user ∧ out.orderNumber = o.orderNumber ∧
       out.items = o.items ∧ out.subtotal = o.subtotal ∧
       out.deliveryFee = o.deliveryFee ∧ out.tax = o.tax ∧ out.total = o.total ∧
       out.deliveryAddress = o.deliveryAddress ∧ out.contactInfo = o.contactInfo ∧
       out.paymentMethod = o.paymentMethod ∧ out.paymentStatus = o.paymentStatus ∧
       out.deliveryTimeEstimated = o.deliveryTimeEstimated ∧
       out.deliveryTimeActual = o.deliveryTimeActual ∧
       out.rating = o.rating ∧ out.notifications = o.notifications) ∧
    orderNotificationTypes.contains "cancelled" = false ∧
    bookingNotificationTypes.contains "cancelled" = true ∧
    (∀ (b : Booking) (reason : Option String) (cancelledBy : String) (now : Int),
       (b.cancelBooking reason cancelledBy now).notifications =
         b.notifications ++
           [{ type := "cancelled"
              message := "Your appointment has been cancelled. Reason: " ++
                reason.getD "undefined"
              sentAt := now, isRead := false }]) := by
  refine ⟨?_, by decide, by decide, fun b reason cancelledBy now => rfl⟩
  intro db orderId userId reason o out hf h
  simp only [cancelOrderRoute, hf] at h
  split at h
  · simp at h
  · simp only [Except.ok.injEq] at h
    subst h
    exact ⟨rfl, rfl, rfl, rfl, rfl, rfl, rfl, rfl, rfl, rfl, rfl, rfl, rfl, rfl,
      rfl, rfl, rfl, rfl⟩

/-- The scenario order after cancellation with a reason. -/
def demoCancelledOrder : Order :=
  { demoOrder with orderStatus := .cancelled, cancellationReason := some "too late" }

/-- Witness for C10 applied to the concrete scenario order. -/
theorem order_cancel_frame_witness :
    demoCancelledOrder.orderStatus = .cancelled ∧
    demoCancelledOrder.cancellationReason = some "too late" ∧
    demoCancelledOrder.id = demoOrder.id ∧
    demoCancelledOrder.user = demoOrder.user ∧
    demoCancelledOrder.orderNumber = demoOrder.orderNumber ∧
    demoCancelledOrder.items = demoOrder.items ∧
    demoCancelledOrder.subtotal = demoOrder.subtotal ∧
    demoCancelledOrder.deliveryFee = demoOrder.deliveryFee ∧
    demoCancelledOrder.tax = demoOrder.tax ∧
    demoCancelledOrder.total = demoOrder.total ∧
    demoCancelledOrder.deliveryAddress = demoOrder.deliveryAddress ∧
    demoCancelledOrder.contactInfo = demoOrder.contactInfo ∧
    demoCancelledOrder.paymentMethod = demoOrder.paymentMethod ∧
    demoCancelledOrder.paymentStatus = demoOrder.paymentStatus ∧
    demoCancelledOrder.deliveryTimeEstimated = demoOrder.deliveryTimeEstimated ∧
    demoCancelledOrder.deliveryTimeActual = demoOrder.deliveryTimeActual ∧
    demoCancelledOrder.rating = demoOrder.rating ∧
    demoCancelledOrder.notifications = demoOrder.notifications :=
  order_cancel_frame.1 [demoOrder] "o1" "u1" (some "too late") demoOrder
    demoCancelledOrder rfl rfl
